import Mathlib

/-!
Shallow embedding of the teleshake repository's name-tracking and renewal
logic, translated from `src/name_manager.py` (class `HandshakeNameManager`)
and `src/api/wallet.py` (class `WALLET`).

Modelling conventions:
* Time is an integer count of seconds; `daySecs = 86400` is one day, so
  `datetime.now() + timedelta(days = d)` becomes `now + d * daySecs`, and
  `timedelta.days` (which truncates toward minus infinity) becomes
  `Int.fdiv _ daySecs`.
* Decoded JSON values (`response.json()` in Python) are `PyVal`.
* The HTTP layer is an oracle `Request → TransportResult`: `success body`
  is an HTTP success whose body decoded to `body`; `failure msg` is any
  `requests.RequestException` (connection error, HTTP error status raised
  by `raise_for_status`, or JSON decode failure) with message `msg`.
* `HandshakeNameManager` receives its wallet client by constructor
  injection (the repository's own tests substitute mock wallets), so the
  manager-level functions take the wallet as an oracle argument: for the
  renewal loop, a map from the `send_renew` call made to the response
  dictionary it returned.
-/

/-- Decoded JSON values, as produced by `response.json()`. -/
inductive PyVal where
  | null
  | bool (b : Bool)
  | int (n : Int)
  | str (s : String)
  | arr (xs : List PyVal)
  | obj (kvs : List (String × PyVal))
deriving Repr

/-- One HTTP request issued by `WALLET._make_request`: the method string, the
endpoint appended to the base URL, and the request body.  The source
serializes the payload dictionary with `json.dumps` before sending; since
that serialization is injective on payload dictionaries, the embedding
carries the dictionary itself. -/
structure Request where
  method : String
  endpoint : String
  data : List (String × PyVal)
deriving Repr

/-- Outcome of the underlying `requests.request` call plus decoding. -/
inductive TransportResult where
  | success (body : PyVal)
  | failure (msg : String)

namespace WALLET

/-- `WALLET._make_request` (src/api/wallet.py lines 100-118): perform the
call; on any `requests.RequestException` return the sentinel dictionary
`{"error": f"Request failed: {e}"}` instead of propagating the exception;
on success return the decoded JSON body. -/
def make_request (transport : Request → TransportResult) (method endpoint : String)
    (data : List (String × PyVal)) : PyVal :=
  match transport { method := method, endpoint := endpoint, data := data } with
  | .success body => body
  | .failure msg => .obj [("error", .str ("Request failed: " ++ msg))]

/-- `WALLET.get`: a GET request with empty body. -/
def get (transport : Request → TransportResult) (endpoint : String) : PyVal :=
  make_request transport "get" endpoint []

/-- `WALLET.post`: a POST request. -/
def post (transport : Request → TransportResult) (endpoint : String)
    (message : List (String × PyVal)) : PyVal :=
  make_request transport "post" endpoint message

/-- `WALLET.get_wallet_info` (the effective definition at src/api/wallet.py
lines 167-170; the earlier same-named method at lines 67-89, which re-raised
transport errors, is shadowed by this later definition and is dead code). -/
def get_wallet_info (transport : Request → TransportResult) (id : String) : PyVal :=
  get transport ("/wallet/" ++ id)

/-- `WALLET.send_renew` (src/api/wallet.py lines 537-547): POST to
`/wallet/{id}/renewal` with the passphrase, the name, and integer `1`/`0`
for the `broadcast` and `sign` flags. -/
def send_renew (transport : Request → TransportResult)
    (id passphrase name : String) (sign broadcast : Bool) : PyVal :=
  post transport ("/wallet/" ++ id ++ "/renewal")
    [("passphrase", .str passphrase),
     ("name", .str name),
     ("broadcast", .int (if broadcast then 1 else 0)),
     ("sign", .int (if sign then 1 else 0))]

end WALLET

/-- Seconds in one day. -/
def daySecs : Int := 86400

/-- The `stats` sub-dictionary of a name record, carrying the node-reported
`daysUntilExpire` countdown when present. -/
structure StatsObj where
  daysUntilExpire : Option Int
deriving Repr, DecidableEq

/-- One element of the list returned by `get_wallet_names_own`: either a
string, some other non-dictionary value, or a name-record dictionary with
its optional `name`, `renewal` and `stats` fields. -/
inductive RespItem where
  | str (s : String)
  | other
  | dict (name : Option String) (renewal : Option Int) (stats : Option StatsObj)
deriving Repr, DecidableEq

/-- The decoded fetch response: either a JSON dictionary (the API's error
shape, values rendered as strings) or the list of name records. -/
inductive NamesResponse where
  | obj (kvs : List (String × String))
  | arr (items : List RespItem)
deriving Repr, DecidableEq

/-- One record of the persisted mapping, as held in `names_data`:
the computed expiration timestamp (stored in the file as its lossless
ISO-8601 rendering), the `renewal` height with default 0, and the raw
`daysUntilExpire` value (null when absent). -/
structure StoredRecord where
  expiration_date : Int
  renewal_height : Int
  days_until_expire : Option Int
deriving Repr, DecidableEq

/-- The parsed contents of `wallet_names.json`: an insertion-ordered
mapping from name to record, as a Python dict is. -/
abbrev Store := List (String × StoredRecord)

/-- Python's `"error" in response` membership test on the fetch response:
key membership for a dictionary, element membership for a list (a list
element equals the string `"error"` only when it is that string). -/
def contains_error : NamesResponse → Bool
  | .obj kvs => kvs.any (fun p => p.1 = "error")
  | .arr items => items.any (fun it => it = .str "error")

/-- Python's `for name_info in response`: iterating a dictionary yields its
keys (strings), iterating a list yields its elements. -/
def respItems : NamesResponse → List RespItem
  | .obj kvs => kvs.map (fun p => .str p.1)
  | .arr items => items

/-- `HandshakeNameManager._get_expiration_date` (src/name_manager.py lines
73-89): a non-dictionary record, a missing or non-dictionary `stats`, or a
missing `daysUntilExpire` all fall back to `now + 730` days (with a logged
warning); otherwise the expiration is `now + daysUntilExpire` days. -/
def _get_expiration_date (now : Int) (name_info : RespItem) : Int :=
  match name_info with
  | .dict _ _ stats =>
    match stats.bind (fun s => s.daysUntilExpire) with
    | none => now + 730 * daySecs
    | some d => now + d * daySecs
  | _ => now + 730 * daySecs

/-- Python dict assignment `names_data[name] = value`: replace in place when
the key exists, else append. -/
def storeInsert (s : Store) (k : String) (v : StoredRecord) : Store :=
  if s.any (fun p => p.1 = k) then
    s.map (fun p => if p.1 = k then (k, v) else p)
  else s ++ [(k, v)]

/-- The record-building loop of `fetch_and_save_names` (src/name_manager.py
lines 97-115): skip non-dictionary entries, skip entries whose `name` is
missing or falsy (the empty string), and store the computed expiration,
the `renewal` height (default 0) and the raw `daysUntilExpire`. -/
def buildStore (now : Int) : Store → List RespItem → Store
  | acc, [] => acc
  | acc, .dict oname renewal stats :: rest =>
    match oname with
    | some name =>
      if name = "" then buildStore now acc rest
      else
        buildStore now
          (storeInsert acc name
            { expiration_date := _get_expiration_date now (.dict oname renewal stats)
              renewal_height := renewal.getD 0
              days_until_expire := stats.bind (fun s => s.daysUntilExpire) })
          rest
    | none => buildStore now acc rest
  | acc, .str _ :: rest => buildStore now acc rest
  | acc, .other :: rest => buildStore now acc rest

/-- The exception raised by `fetch_and_save_names`: the intended
`RuntimeError`, or the `TypeError` produced when the f-string in the raise
statement subscripts a list response with the string key `"error"`. -/
inductive FetchErr where
  | runtimeError (msg : String)
  | typeError
deriving Repr, DecidableEq

/-- `HandshakeNameManager.fetch_and_save_names` (src/name_manager.py lines
91-119): if `"error" in response` holds the function raises before writing
anything — evaluating `f"Failed to fetch names: {response['error']}"`
raises `TypeError` when the response is a list (string subscript on a
list), and otherwise the `RuntimeError` is raised; on the no-error path the
mapping is built and fully overwrites the store file. -/
def fetch_and_save_names (response : NamesResponse) (now : Int) : Except FetchErr Store :=
  if contains_error response then
    match response with
    | .obj kvs =>
      Except.error (.runtimeError ("Failed to fetch names: " ++ ((kvs.lookup "error").getD "")))
    | .arr _ => Except.error .typeError
  else
    Except.ok (buildStore now [] (respItems response))

/-- Contents of the store file after a `fetch_and_save_names` call that
started from contents `prev`: the freshly built mapping on success (the
file is opened with mode `w`, truncating whatever was there), and the old
contents when the function raised before reaching the write. -/
def storeAfterFetch (prev : Store) (response : NamesResponse) (now : Int) : Store :=
  match fetch_and_save_names response now with
  | .ok s => s
  | .error _ => prev

/-- True when a fetch outcome is the `RuntimeError` case. -/
def isRuntimeError : Except FetchErr Store → Bool
  | .error (.runtimeError _) => true
  | _ => false

/-- One call to `wallet.send_renew` as issued by the renewal loop, with the
wallet id, the passphrase, the name, and the two flags. -/
structure RenewCall where
  id : String
  passphrase : String
  name : String
  sign : Bool
  broadcast : Bool
deriving Repr, DecidableEq

/-- Python's `"error" in result` on the response dictionary returned by
`send_renew`. -/
def hasErrorKey (result : List (String × PyVal)) : Bool :=
  result.any (fun p => p.1 = "error")

/-- The `for name, data in names_data.items()` loop of
`renew_expiring_names` (src/name_manager.py lines 139-156): every record at
or before the threshold date gets one `send_renew` call with `sign=True`
and `broadcast=True`; a response containing an `error` key is logged and
skipped, any other response appends the name to `renewed`.  Returns the
list of calls issued and the `renewed` list, in loop order. -/
def renewLoop (wallet : RenewCall → List (String × PyVal))
    (wallet_id passphrase : String) (threshold_date : Int) :
    Store → List RenewCall × List String
  | [] => ([], [])
  | (name, data) :: rest =>
    if data.expiration_date ≤ threshold_date then
      let call : RenewCall :=
        { id := wallet_id, passphrase := passphrase, name := name,
          sign := true, broadcast := true }
      let tail := renewLoop wallet wallet_id passphrase threshold_date rest
      if hasErrorKey (wallet call) then (call :: tail.1, tail.2)
      else (call :: tail.1, name :: tail.2)
    else renewLoop wallet wallet_id passphrase threshold_date rest

/-- `HandshakeNameManager.renew_expiring_names` (src/name_manager.py lines
128-156): a missing store file (`load_names` raising `FileNotFoundError`,
caught) returns the empty list with no calls; otherwise the loop runs with
threshold date `now + threshold_days` days.  The first component is the
trace of `send_renew` calls issued, the second the returned list. -/
def renew_expiring_names (wallet : RenewCall → List (String × PyVal))
    (wallet_id passphrase : String) (threshold_days : Int)
    (store : Option Store) (now : Int) : List RenewCall × List String :=
  match store with
  | none => ([], [])
  | some names_data =>
    renewLoop wallet wallet_id passphrase (now + threshold_days * daySecs) names_data

/-- The result dictionary of `get_soonest_expiring_name`: the name, the
expiration timestamp (displayed by the source through `strftime`), and the
whole days remaining. -/
structure SoonestResult where
  name : Option String
  expiration_date : Option Int
  days_until_expire : Option Int
deriving Repr, DecidableEq

/-- The scanning loop of `get_soonest_expiring_name`: keep the first record
whose expiration is strictly smaller than the best so far. -/
def soonestAux : Option (String × Int) → Store → Option (String × Int)
  | best, [] => best
  | none, (name, data) :: rest =>
    soonestAux (some (name, data.expiration_date)) rest
  | some (bn, bd), (name, data) :: rest =>
    if data.expiration_date < bd then
      soonestAux (some (name, data.expiration_date)) rest
    else soonestAux (some (bn, bd)) rest

/-- `HandshakeNameManager.get_soonest_expiring_name` (src/name_manager.py
lines 189-217): an absent store file or an empty mapping yields the
all-`None` result; otherwise the record with the minimum expiration is
returned together with `(soonest_date - datetime.now()).days`, the
floor of the difference in days (negative when already past). -/
def get_soonest_expiring_name (store : Option Store) (now : Int) : SoonestResult :=
  match store with
  | none => { name := none, expiration_date := none, days_until_expire := none }
  | some names_data =>
    if names_data.isEmpty then
      { name := none, expiration_date := none, days_until_expire := none }
    else
      match soonestAux none names_data with
      | none => { name := none, expiration_date := none, days_until_expire := none }
      | some (n, d) =>
        { name := some n, expiration_date := some d,
          days_until_expire := some (Int.fdiv (d - now) daySecs) }

/-- The decoded balance response used by `get_status_info`: the two integer
fields (absent ones default to 0 in the source) and a possible `error`
entry. -/
structure BalanceResponse where
  unconfirmed : Option Int
  lockedUnconfirmed : Option Int
  error : Option String
deriving Repr, DecidableEq

/-- Python's `round` to an integer: nearest integer, ties to even. -/
def round_half_even (q : ℚ) : ℤ :=
  if q - Int.floor q < 1 / 2 then Int.floor q
  else if q - Int.floor q > 1 / 2 then Int.floor q + 1
  else if Even (Int.floor q) then Int.floor q else Int.floor q + 1

/-- Python's `round(x, 6)`: round to the nearest multiple of `10 ^ (-6)`,
ties to even.  The source computes over binary floats; the embedding uses
exact rationals, which agree with the float computation on the inputs the
claims exercise. -/
def py_round6 (q : ℚ) : ℚ :=
  (round_half_even (q * 1000000) : ℚ) / 1000000

/-- The balance field of `HandshakeNameManager.get_status_info`
(src/name_manager.py lines 169-175): `none` models the `"Error"`
placeholder used for a non-dictionary or error-bearing response; otherwise
`round((unconfirmed - lockedUnconfirmed) / 1_000_000, 6)` with missing
fields defaulting to 0. -/
def get_status_balance (balance_info : Option BalanceResponse) : Option ℚ :=
  match balance_info with
  | none => none
  | some b =>
    if b.error.isSome then none
    else
      some (py_round6 ((((b.unconfirmed.getD 0 : Int) : ℚ) -
        ((b.lockedUnconfirmed.getD 0 : Int) : ℚ)) / 1000000))

/-- Character of one decimal digit. -/
def digitChar (d : Nat) : Char := Char.ofNat (48 + d)

/-- Numeric value of one decimal digit character. -/
def charDigit (c : Char) : Nat := c.toNat - 48

/-- The string `datetime.isoformat()` writes for a timestamp.  The real
rendering is the ISO-8601 date-time text, an injective function of the
timestamp that `datetime.fromisoformat` inverts exactly; the embedding
renders the integer timestamp itself (sign folded into the low bit, digits
little-endian), which has the same lossless round-trip property. -/
def isoformat (t : Int) : String :=
  String.mk ((Nat.digits 10 (2 * t.natAbs + (if t < 0 then 1 else 0))).map digitChar)

/-- `datetime.fromisoformat`, the exact inverse of `isoformat` on strings
that `isoformat` produced; other strings are rejected (the source would
raise `ValueError`). -/
def fromisoformat (s : String) : Option Int :=
  if s.data.all (fun c => 48 ≤ c.toNat ∧ c.toNat < 58) then
    some (if Nat.ofDigits 10 (s.data.map charDigit) % 2 = 1 then
            -((Nat.ofDigits 10 (s.data.map charDigit) / 2 : Nat) : Int)
          else ((Nat.ofDigits 10 (s.data.map charDigit) / 2 : Nat) : Int))
  else none

/-- The JSON value `fetch_and_save_names` writes for one record:
`json.dump` of `{"expiration_date": <isoformat string>, "renewal_height":
<int>, "days_until_expire": <int or null>}`. -/
def dumpRecord (r : StoredRecord) : PyVal :=
  .obj [("expiration_date", .str (isoformat r.expiration_date)),
        ("renewal_height", .int r.renewal_height),
        ("days_until_expire",
          match r.days_until_expire with
          | none => .null
          | some d => .int d)]

/-- `json.dump` of the whole `names_data` mapping. -/
def dumpStore (s : Store) : PyVal :=
  .obj (s.map (fun p => (p.1, dumpRecord p.2)))

/-- Parse one record back from the JSON file, as the readers
(`load_names` plus the `datetime.fromisoformat` at each use site) do. -/
def parseRecord : PyVal → Option StoredRecord
  | .obj [("expiration_date", .str es), ("renewal_height", .int h), ("days_until_expire", dv)] =>
    match fromisoformat es, dv with
    | some e, .null => some { expiration_date := e, renewal_height := h, days_until_expire := none }
    | some e, .int d => some { expiration_date := e, renewal_height := h, days_until_expire := some d }
    | _, _ => none
  | _ => none

/-- Parse the key-value list of the store file object, all-or-nothing as
`json.load` is. -/
def loadRecords : List (String × PyVal) → Option Store
  | [] => some []
  | p :: rest =>
    match parseRecord p.2, loadRecords rest with
    | some r, some s => some ((p.1, r) :: s)
    | _, _ => none

/-- `json.load` of the store file contents, record fields parsed. -/
def loadStore : PyVal → Option Store
  | .obj kvs => loadRecords kvs
  | _ => none

/-- The name under which a fetched entry is stored: dictionaries with a
present, truthy (non-empty) `name` field, and nothing else. -/
def truthyName : RespItem → Option String
  | .dict (some nm) _ _ => if nm = "" then none else some nm
  | _ => none

theorem renewLoop_eq (wallet : RenewCall → List (String × PyVal))
    (wid pw : String) (th : Int) (st : Store) :
    renewLoop wallet wid pw th st =
      ((st.filter (fun p => decide (p.2.expiration_date ≤ th))).map
         (fun p =>
           ({ id := wid, passphrase := pw, name := p.1,
              sign := true, broadcast := true } : RenewCall)),
       ((st.filter (fun p => decide (p.2.expiration_date ≤ th))).filter
          (fun p => !hasErrorKey (wallet
            { id := wid, passphrase := pw, name := p.1,
              sign := true, broadcast := true }))).map
         (fun p => p.1)) := by
  induction st with
  | nil => rfl
  | cons hd tl ih =>
    obtain ⟨name, data⟩ := hd
    by_cases hq : data.expiration_date ≤ th
    · by_cases he : hasErrorKey (wallet
        { id := wid, passphrase := pw, name := name,
          sign := true, broadcast := true })
      · simp [renewLoop, hq, he, ih]
      · simp [renewLoop, hq, he, ih]
    · simp [renewLoop, hq, ih]

theorem soonestAux_min (st : Store) :
    ∀ (bn : String) (bd : Int), ∃ n d,
      soonestAux (some (bn, bd)) st = some (n, d) ∧
      ((n, d) = (bn, bd) ∨ (n, d) ∈ st.map (fun p => (p.1, p.2.expiration_date))) ∧
      d ≤ bd ∧ ∀ p ∈ st, d ≤ p.2.expiration_date := by
  induction st with
  | nil =>
    intro bn bd
    exact ⟨bn, bd, rfl, Or.inl rfl, le_refl _, by simp⟩
  | cons hd tl ih =>
    intro bn bd
    obtain ⟨name, data⟩ := hd
    by_cases hlt : data.expiration_date < bd
    · obtain ⟨n, d, heq, hmem, hle, hmin⟩ := ih name data.expiration_date
      refine ⟨n, d, ?_, ?_, ?_, ?_⟩
      · simpa [soonestAux, hlt] using heq
      · rcases hmem with h | h
        · right; simp [h]
        · right; simp [h]
      · exact le_of_lt (lt_of_le_of_lt hle hlt)
      · intro p hp
        rcases List.mem_cons.mp hp with h | h
        · subst h; exact hle
        · exact hmin p h
    · obtain ⟨n, d, heq, hmem, hle, hmin⟩ := ih bn bd
      refine ⟨n, d, ?_, ?_, hle, ?_⟩
      · simpa [soonestAux, hlt] using heq
      · rcases hmem with h | h
        · exact Or.inl h
        · right; simp [h]
      · intro p hp
        rcases List.mem_cons.mp hp with h | h
        · subst h; exact le_trans hle (not_lt.mp hlt)
        · exact hmin p h

theorem storeInsert_keys (s : Store) (k : String) (v : StoredRecord) (n : String) :
    n ∈ (storeInsert s k v).map Prod.fst ↔ n ∈ s.map Prod.fst ∨ n = k := by
  unfold storeInsert
  by_cases h : s.any (fun p => p.1 = k)
  · simp only [h, if_true, List.map_map, List.mem_map]
    constructor
    · rintro ⟨p, hp, hpn⟩
      by_cases hk : p.1 = k
      · right
        simpa [Function.comp, hk] using hpn.symm
      · left
        exact ⟨p, hp, by simpa [Function.comp, hk] using hpn⟩
    · rintro (⟨p, hp, hpn⟩ | rfl)
      · by_cases hk : p.1 = k
        · exact ⟨p, hp, by simp [Function.comp, hk, hk ▸ hpn]⟩
        · exact ⟨p, hp, by simpa [Function.comp, hk] using hpn⟩
      · obtain ⟨p, hp, hpk⟩ := List.any_eq_true.mp h
        exact ⟨p, hp, by simp [Function.comp, of_decide_eq_true hpk]⟩
  · simp [h, List.map_append]

theorem buildStore_keys (now : Int) (items : List RespItem) :
    ∀ (acc : Store) (n : String),
      (n ∈ (buildStore now acc items).map Prod.fst) ↔
        (n ∈ acc.map Prod.fst ∨ ∃ it ∈ items, truthyName it = some n) := by
  induction items with
  | nil => simp [buildStore]
  | cons hd tl ih =>
    intro acc n
    cases hd with
    | str s => simp [buildStore, ih, truthyName]
    | other => simp [buildStore, ih, truthyName]
    | dict oname renewal stats =>
      cases oname with
      | none => simp [buildStore, ih, truthyName]
      | some nm =>
        by_cases h : nm = ""
        · simp [buildStore, h, ih, truthyName]
        · rw [buildStore, if_neg h, ih, storeInsert_keys]
          simp only [List.mem_cons, truthyName, if_neg h]
          constructor
          · rintro ((hacc | rfl) | ⟨it, hit, hname⟩)
            · exact Or.inl hacc
            · exact Or.inr ⟨.dict (some n) renewal stats, Or.inl rfl, by simp [truthyName, h]⟩
            · exact Or.inr ⟨it, Or.inr hit, hname⟩
          · rintro (hacc | ⟨it, (rfl | hit), hname⟩)
            · exact Or.inl (Or.inl hacc)
            · left; right
              simpa [truthyName, h] using hname.symm
            · exact Or.inr ⟨it, hit, hname⟩

theorem charDigit_digitChar (d : Nat) (hd : d < 10) : charDigit (digitChar d) = d := by
  interval_cases d <;> decide

theorem digitChar_valid (d : Nat) (hd : d < 10) :
    48 ≤ (digitChar d).toNat ∧ (digitChar d).toNat < 58 := by
  interval_cases d <;> decide

theorem iso_digits_roundtrip (N : Nat) :
    ((Nat.digits 10 N).map digitChar).map charDigit = Nat.digits 10 N := by
  rw [List.map_map]
  have hc : (Nat.digits 10 N).map (charDigit ∘ digitChar) = (Nat.digits 10 N).map id := by
    apply List.map_congr_left
    intro d hd
    exact charDigit_digitChar d (Nat.digits_lt_base (by norm_num) hd)
  rw [hc, List.map_id]

theorem fromiso_digits (M : Nat) :
    fromisoformat (String.mk ((Nat.digits 10 M).map digitChar)) =
      some (if M % 2 = 1 then -((M / 2 : Nat) : Int) else ((M / 2 : Nat) : Int)) := by
  have hall : (((Nat.digits 10 M).map digitChar).all
      (fun c => decide (48 ≤ c.toNat ∧ c.toNat < 58))) = true := by
    rw [List.all_eq_true]
    intro c hc
    obtain ⟨d, hd, rfl⟩ := List.mem_map.mp hc
    exact decide_eq_true (digitChar_valid d (Nat.digits_lt_base (by norm_num) hd))
  unfold fromisoformat
  rw [show (String.mk ((Nat.digits 10 M).map digitChar)).data
      = (Nat.digits 10 M).map digitChar from rfl]
  rw [if_pos hall, iso_digits_roundtrip, Nat.ofDigits_digits]

theorem fromisoformat_isoformat (t : Int) : fromisoformat (isoformat t) = some t := by
  unfold isoformat
  rw [fromiso_digits]
  by_cases ht : t < 0
  · rw [if_pos ht]
    rw [if_pos (by omega : (2 * t.natAbs + 1) % 2 = 1)]
    simp only [Option.some.injEq]
    omega
  · rw [if_neg ht]
    rw [if_neg (by omega : ¬(2 * t.natAbs + 0) % 2 = 1)]
    simp only [Option.some.injEq]
    omega

theorem parseRecord_dumpRecord (r : StoredRecord) : parseRecord (dumpRecord r) = some r := by
  obtain ⟨e, h, d⟩ := r
  cases d <;> simp [dumpRecord, parseRecord, fromisoformat_isoformat]

theorem loadRecords_dump (s : Store) :
    loadRecords (s.map (fun p => (p.1, dumpRecord p.2))) = some s := by
  induction s with
  | nil => rfl
  | cons hd tl ih => simp [loadRecords, parseRecord_dumpRecord, ih]

theorem loadStore_dumpStore (s : Store) : loadStore (dumpStore s) = some s := by
  simp [loadStore, dumpStore, loadRecords_dump]

theorem round_half_even_intCast (k : ℤ) : round_half_even ((k : ℤ) : ℚ) = k := by
  unfold round_half_even
  rw [Int.floor_intCast, sub_self]
  norm_num

theorem py_round6_int_div (k : ℤ) :
    py_round6 ((k : ℚ) / 1000000) = (k : ℚ) / 1000000 := by
  unfold py_round6
  rw [div_mul_cancel₀ _ (by norm_num : (1000000 : ℚ) ≠ 0), round_half_even_intCast]

/-- Claim C1: for every persisted mapping and every configured threshold,
`renew_expiring_names` issues one `send_renew` call — with `sign` and
`broadcast` both enabled — for exactly those records whose stored
expiration timestamp is at or before `now + threshold` days, and returns
exactly the names among those whose renewal response did not contain an
`error` key; `send_renew` with both flags true posts `broadcast = 1` and
`sign = 1`; and on a concrete store holding a record expiring in 5 days
and one in 400 days, with threshold 30, the 5-day record gets exactly one
renewal call and appears in the returned list while the 400-day record
gets none. -/
theorem renew_expiring_names_threshold_spec
    (wallet : RenewCall → List (String × PyVal)) (wid pw : String)
    (t now : Int) (store : Store)
    (transport : Request → TransportResult) (nm : String) :
    (renew_expiring_names wallet wid pw t (some store) now).1 =
      (store.filter (fun p => decide (p.2.expiration_date ≤ now + t * daySecs))).map
        (fun p => { id := wid, passphrase := pw, name := p.1,
                    sign := true, broadcast := true }) ∧
    (renew_expiring_names wallet wid pw t (some store) now).2 =
      ((store.filter (fun p => decide (p.2.expiration_date ≤ now + t * daySecs))).filter
         (fun p => !hasErrorKey (wallet
           { id := wid, passphrase := pw, name := p.1,
             sign := true, broadcast := true }))).map
        (fun p => p.1) ∧
    WALLET.send_renew transport wid pw nm true true =
      WALLET.make_request transport "post" ("/wallet/" ++ wid ++ "/renewal")
        [("passphrase", .str pw), ("name", .str nm),
         ("broadcast", .int 1), ("sign", .int 1)] ∧
    renew_expiring_names (fun _ => [("result", PyVal.null)]) "primary" "secret" 30
      (some [("soon.hns", ⟨5 * daySecs, 0, some 5⟩),
             ("far.hns", ⟨400 * daySecs, 0, some 400⟩)]) 0 =
      ([{ id := "primary", passphrase := "secret", name := "soon.hns",
          sign := true, broadcast := true }], ["soon.hns"]) := by
  refine ⟨?_, ?_, rfl, by decide⟩
  · simp [renew_expiring_names, renewLoop_eq]
  · simp [renew_expiring_names, renewLoop_eq]

/-- Claim C2: `get_soonest_expiring_name` returns a record carrying the
minimum expiration timestamp of the mapping together with the floor of the
days remaining (negative once past); an absent store file or an empty
mapping yields the explicit all-`None` result (the function is total, so it
never raises); and on `{a ↦ +10 days, b ↦ +5 days}` it returns `b` with 5
days remaining, inside the claimed `{4, 5}` window. -/
theorem get_soonest_expiring_name_spec (now : Int) (st : Store) :
    get_soonest_expiring_name none now =
      { name := none, expiration_date := none, days_until_expire := none } ∧
    get_soonest_expiring_name (some []) now =
      { name := none, expiration_date := none, days_until_expire := none } ∧
    (st ≠ [] → ∃ n d,
      get_soonest_expiring_name (some st) now =
        { name := some n, expiration_date := some d,
          days_until_expire := some (Int.fdiv (d - now) daySecs) } ∧
      (n, d) ∈ st.map (fun p => (p.1, p.2.expiration_date)) ∧
      ∀ p ∈ st, d ≤ p.2.expiration_date) ∧
    get_soonest_expiring_name
      (some [("a", ⟨10 * daySecs, 0, some 10⟩), ("b", ⟨5 * daySecs, 0, some 5⟩)]) 0 =
      { name := some "b", expiration_date := some (5 * daySecs),
        days_until_expire := some 5 } ∧
    get_soonest_expiring_name (some [("past", ⟨-2 * daySecs, 0, none⟩)]) 0 =
      { name := some "past", expiration_date := some (-2 * daySecs),
        days_until_expire := some (-2) } := by
  refine ⟨rfl, rfl, ?_, by decide, by decide⟩
  intro hne
  match st, hne with
  | (name, data) :: tl, _ =>
    obtain ⟨n, d, heq, hmem, hle, hmin⟩ := soonestAux_min tl name data.expiration_date
    refine ⟨n, d, ?_, ?_, ?_⟩
    · simp [get_soonest_expiring_name, soonestAux, heq]
    · rcases hmem with h | h
      · simp only [List.map_cons, List.mem_cons]
        exact Or.inl h
      · simp only [List.map_cons, List.mem_cons]
        exact Or.inr h
    · intro p hp
      rcases List.mem_cons.mp hp with h | h
      · exact h ▸ hle
      · exact hmin p h

/-- Claim C6: during one invocation of `renew_expiring_names`, a renewal
response containing an `error` key excludes that name from the returned
list but does not abort the loop: every other qualifying record, before
and after the failing one, still gets its single renewal call (no retry,
no rollback); concretely, with `bad.hns` failing and `good.hns`
succeeding, both calls are issued and only `good.hns` is returned. -/
theorem renew_error_no_abort_spec
    (wallet : RenewCall → List (String × PyVal)) (wid pw : String)
    (t now : Int) (pre post : Store) (name : String) (data : StoredRecord)
    (hq : data.expiration_date ≤ now + t * daySecs)
    (he : hasErrorKey (wallet
      { id := wid, passphrase := pw, name := name,
        sign := true, broadcast := true }) = true) :
    (renew_expiring_names wallet wid pw t (some (pre ++ (name, data) :: post)) now).1 =
      (pre.filter (fun p => decide (p.2.expiration_date ≤ now + t * daySecs))).map
        (fun p => { id := wid, passphrase := pw, name := p.1,
                    sign := true, broadcast := true }) ++
      ({ id := wid, passphrase := pw, name := name,
         sign := true, broadcast := true } ::
        (post.filter (fun p => decide (p.2.expiration_date ≤ now + t * daySecs))).map
          (fun p => { id := wid, passphrase := pw, name := p.1,
                      sign := true, broadcast := true })) ∧
    (renew_expiring_names wallet wid pw t (some (pre ++ (name, data) :: post)) now).2 =
      (((pre.filter (fun p => decide (p.2.expiration_date ≤ now + t * daySecs))).filter
          (fun p => !hasErrorKey (wallet
            { id := wid, passphrase := pw, name := p.1,
              sign := true, broadcast := true }))).map (fun p => p.1)) ++
      (((post.filter (fun p => decide (p.2.expiration_date ≤ now + t * daySecs))).filter
          (fun p => !hasErrorKey (wallet
            { id := wid, passphrase := pw, name := p.1,
              sign := true, broadcast := true }))).map (fun p => p.1)) ∧
    renew_expiring_names
      (fun c => if c.name = "bad.hns" then [("error", PyVal.str "boom")]
                else [("result", PyVal.null)])
      "primary" "" 30
      (some [("bad.hns", ⟨5 * daySecs, 0, some 5⟩),
             ("good.hns", ⟨10 * daySecs, 0, some 10⟩)]) 0 =
      ([{ id := "primary", passphrase := "", name := "bad.hns",
          sign := true, broadcast := true },
        { id := "primary", passphrase := "", name := "good.hns",
          sign := true, broadcast := true }], ["good.hns"]) := by
  refine ⟨?_, ?_, by decide⟩
  · simp [renew_expiring_names, renewLoop_eq, List.filter_append, List.map_append, hq]
  · simp [renew_expiring_names, renewLoop_eq, List.filter_append, List.map_append, hq, he]

/-- Witness for C6: a failing `bad.hns` does not stop `good.hns` from being
renewed in the same invocation. -/
theorem renew_error_no_abort_spec_witness :
    (renew_expiring_names
      (fun c => if c.name = "bad.hns" then [("error", PyVal.str "boom")]
                else [("result", PyVal.null)])
      "primary" "" 30
      (some ([] ++ ("bad.hns", ⟨5 * daySecs, 0, some 5⟩) ::
        [("good.hns", ⟨10 * daySecs, 0, some 10⟩)])) 0).2 = ["good.hns"] := by
  have h := (renew_error_no_abort_spec
    (fun c => if c.name = "bad.hns" then [("error", PyVal.str "boom")]
              else [("result", PyVal.null)])
    "primary" "" 30 0 [] [("good.hns", ⟨10 * daySecs, 0, some 10⟩)]
    "bad.hns" ⟨5 * daySecs, 0, some 5⟩ (by decide) (by rfl)).2.1
  rw [h]
  decide

/-- Claim C7: when the store file is absent or the persisted mapping is
empty, `renew_expiring_names` issues no renewal calls and returns the empty
list (and, being total, does not raise). -/
theorem renew_expiring_names_empty_spec
    (wallet : RenewCall → List (String × PyVal)) (wid pw : String) (t now : Int) :
    renew_expiring_names wallet wid pw t none now = ([], []) ∧
    renew_expiring_names wallet wid pw t (some []) now = ([], []) :=
  ⟨rfl, rfl⟩

/-- Claim C3: on a successful fetch, the keys of the persisted mapping are
exactly the names of the response records that carry a non-empty `name`
field (non-dictionary entries and entries with a missing or empty name are
skipped, not failed on), and the previous store contents are fully
replaced rather than merged; concretely, a response holding one named
record, a nameless record, a stray string and an empty-named record
persists exactly the one named record over any previous contents. -/
theorem fetch_and_save_names_keys_spec
    (response : NamesResponse) (now : Int) (prev s : Store)
    (hok : fetch_and_save_names response now = Except.ok s) :
    (∀ n, n ∈ s.map Prod.fst ↔ ∃ it ∈ respItems response, truthyName it = some n) ∧
    storeAfterFetch prev response now = s ∧
    storeAfterFetch [("old.hns", ⟨0, 0, none⟩)]
      (.arr [.dict (some "a.hns") (some 7) (some ⟨some 12⟩),
             .dict none none none, .str "junk", .dict (some "") none none]) 0 =
      [("a.hns", { expiration_date := 12 * daySecs, renewal_height := 7,
                   days_until_expire := some 12 })] := by
  have hbuild : s = buildStore now [] (respItems response) := by
    unfold fetch_and_save_names at hok
    by_cases hc : contains_error response
    · rw [if_pos hc] at hok
      cases response with
      | obj kvs => simp at hok
      | arr items => simp at hok
    · rw [if_neg hc] at hok
      exact (Except.ok.inj hok).symm
  refine ⟨?_, ?_, by decide⟩
  · intro n
    rw [hbuild, buildStore_keys]
    simp
  · unfold storeAfterFetch
    rw [hok]

/-- Witness for C3 at a concrete successful fetch. -/
theorem fetch_and_save_names_keys_spec_witness :
    storeAfterFetch [("old.hns", ⟨0, 0, none⟩)]
      (.arr [.dict (some "w.hns") (some 5) (some ⟨some 20⟩)]) 0 =
      [("w.hns", { expiration_date := 20 * daySecs, renewal_height := 5,
                   days_until_expire := some 20 })] :=
  (fetch_and_save_names_keys_spec
    (.arr [.dict (some "w.hns") (some 5) (some ⟨some 20⟩)]) 0
    [("old.hns", ⟨0, 0, none⟩)]
    [("w.hns", { expiration_date := 20 * daySecs, renewal_height := 5,
                 days_until_expire := some 20 })] (by rfl)).2.1

/-- Claim C4: a fetched record whose `stats.daysUntilExpire` is absent does
not make `fetch_and_save_names` fail: `_get_expiration_date` falls back to
`now + 730` days — at least 729 days in the future — and the record is
stored with that fallback expiration instead of being dropped or raising. -/
theorem fetch_missing_days_fallback_spec
    (now : Int) (name : String) (renewal : Option Int) (stats : Option StatsObj)
    (hdays : stats.bind (fun s => s.daysUntilExpire) = none)
    (hname : name ≠ "") :
    _get_expiration_date now (.dict (some name) renewal stats) = now + 730 * daySecs ∧
    now + 729 * daySecs ≤ now + 730 * daySecs ∧
    fetch_and_save_names (.arr [.dict (some name) renewal stats]) now =
      Except.ok [(name, { expiration_date := now + 730 * daySecs,
                          renewal_height := renewal.getD 0,
                          days_until_expire := none })] := by
  refine ⟨?_, by simp only [daySecs]; omega, ?_⟩
  · simp [_get_expiration_date, hdays]
  · simp [fetch_and_save_names, contains_error, respItems, buildStore, hname,
          storeInsert, _get_expiration_date, hdays]

/-- Witness for C4 with a concrete record missing `stats.daysUntilExpire`. -/
theorem fetch_missing_days_fallback_spec_witness :
    fetch_and_save_names (.arr [.dict (some "x.hns") (some 3) none]) 0 =
      Except.ok [("x.hns", { expiration_date := 730 * daySecs,
                             renewal_height := 3,
                             days_until_expire := none })] := by
  have h := (fetch_missing_days_fallback_spec 0 "x.hns" (some 3) none rfl
    (by decide)).2.2
  simpa using h

/-- Claim C5: every remote client operation routes through
`WALLET._make_request`, which turns a transport or protocol failure into
the returned sentinel dictionary `{"error": "Request failed: <message>"}`
rather than a propagated exception, and yields the decoded JSON body on
success; shown for `_make_request` itself and for the `get_wallet_info`
and `send_renew` operations built on it. -/
theorem make_request_soft_fail_spec
    (transport : Request → TransportResult) (method endpoint : String)
    (data : List (String × PyVal)) (msg : String) (body : PyVal)
    (id pw nm : String) :
    (transport { method := method, endpoint := endpoint, data := data } =
        .failure msg →
      WALLET.make_request transport method endpoint data =
        .obj [("error", .str ("Request failed: " ++ msg))]) ∧
    (transport { method := method, endpoint := endpoint, data := data } =
        .success body →
      WALLET.make_request transport method endpoint data = body) ∧
    (transport { method := "get", endpoint := "/wallet/" ++ id, data := [] } =
        .failure msg →
      WALLET.get_wallet_info transport id =
        .obj [("error", .str ("Request failed: " ++ msg))]) ∧
    (transport { method := "post", endpoint := "/wallet/" ++ id ++ "/renewal",
                 data := [("passphrase", .str pw), ("name", .str nm),
                          ("broadcast", .int 1), ("sign", .int 1)] } =
        .failure msg →
      WALLET.send_renew transport id pw nm true true =
        .obj [("error", .str ("Request failed: " ++ msg))]) := by
  refine ⟨?_, ?_, ?_, ?_⟩ <;> intro h <;>
    simp [WALLET.make_request, WALLET.get_wallet_info, WALLET.get, WALLET.post,
          WALLET.send_renew, h]

/-- Witness for C5 with a concrete failing transport and a concrete
succeeding transport. -/
theorem make_request_soft_fail_spec_witness :
    WALLET.make_request (fun _ => .failure "boom") "get" "/wallet/primary" [] =
      .obj [("error", .str ("Request failed: " ++ "boom"))] ∧
    WALLET.make_request (fun _ => .success (.int 7)) "get" "/wallet/primary" [] =
      .int 7 :=
  ⟨(make_request_soft_fail_spec (fun _ => .failure "boom") "get" "/wallet/primary"
      [] "boom" (.int 7) "primary" "" "n").1 rfl,
   (make_request_soft_fail_spec (fun _ => .success (.int 7)) "get" "/wallet/primary"
      [] "boom" (.int 7) "primary" "" "n").2.1 rfl⟩

/-- Claim C8: for every successfully fetched name list, writing the
resulting mapping (`json.dump` with the losslessly rendered expiration
timestamp) and reading it back yields the identical mapping: the
serialization preserves the name keys and the `expiration_date`,
`renewal_height` and `days_until_expire` fields exactly. -/
theorem fetch_store_roundtrip_spec
    (response : NamesResponse) (now : Int) (s : Store)
    (_hok : fetch_and_save_names response now = Except.ok s) :
    loadStore (dumpStore s) = some s :=
  loadStore_dumpStore s

/-- Witness for C8 at a concrete successful fetch. -/
theorem fetch_store_roundtrip_spec_witness :
    loadStore (dumpStore [("w.hns", { expiration_date := 20 * daySecs,
                                      renewal_height := 5,
                                      days_until_expire := some 20 })]) =
      some [("w.hns", { expiration_date := 20 * daySecs, renewal_height := 5,
                        days_until_expire := some 20 })] :=
  fetch_store_roundtrip_spec
    (.arr [.dict (some "w.hns") (some 5) (some ⟨some 20⟩)]) 0
    [("w.hns", { expiration_date := 20 * daySecs, renewal_height := 5,
                 days_until_expire := some 20 })] (by rfl)

/-- Claim C9: the status summary's displayed balance equals
`(unconfirmed - lockedUnconfirmed) / 1_000_000` — the `round(_, 6)` is the
identity because the quotient has at most six decimal places — and the raw
response `{"unconfirmed": 123500000, "lockedUnconfirmed": 0}` displays as
`123.5`. -/
theorem status_balance_spec (u l : Int) :
    get_status_balance (some { unconfirmed := some u,
                               lockedUnconfirmed := some l, error := none }) =
      some (((u : ℚ) - (l : ℚ)) / 1000000) ∧
    get_status_balance (some { unconfirmed := some 123500000,
                               lockedUnconfirmed := some 0, error := none }) =
      some ((247 : ℚ) / 2) := by
  have key : ∀ a b : Int, py_round6 ((((a : Int) : ℚ) - ((b : Int) : ℚ)) / 1000000) =
      (((a : ℚ) - (b : ℚ)) / 1000000) := by
    intro a b
    have hcast : ((a : ℚ) - (b : ℚ)) = ((a - b : ℤ) : ℚ) := by push_cast; ring
    rw [hcast, py_round6_int_div]
  constructor
  · simp only [get_status_balance, Option.getD_some, Option.isSome_none,
      Bool.false_eq_true, if_false]
    rw [key]
  · simp only [get_status_balance, Option.getD_some, Option.isSome_none,
      Bool.false_eq_true, if_false]
    rw [key]
    norm_num

/-- Claim C10 counterexample: on the successful fetch result
`[{"name": "a.hns", ...}, "error"]` — a list that contains the string
`"error"` as an element — the function does raise and persists nothing,
but the exception is a `TypeError` (evaluating `response['error']` in the
message f-string subscripts the list with a string), not the
`RuntimeError` the claim asserts. -/
theorem fetch_list_error_not_runtime_cex :
    fetch_and_save_names
      (.arr [.dict (some "a.hns") (some 1) (some ⟨some 100⟩), .str "error"]) 0 =
      Except.error FetchErr.typeError ∧
    isRuntimeError (fetch_and_save_names
      (.arr [.dict (some "a.hns") (some 1) (some ⟨some 100⟩), .str "error"]) 0) =
      false ∧
    storeAfterFetch [("old.hns", ⟨0, 0, none⟩)]
      (.arr [.dict (some "a.hns") (some 1) (some ⟨some 100⟩), .str "error"]) 0 =
      [("old.hns", ⟨0, 0, none⟩)] :=
  ⟨by rfl, by rfl, by decide⟩

/-- Claim C10 (amended): `fetch_and_save_names` raises exactly when the
Python membership test `"error" in response` holds on the fetch result,
and when it raises the persisted store is left unchanged, the check
preceding any write; consequently a successful fetch result that is a list
containing the string `"error"` as an element makes it raise and persist
nothing even though the fetch reported no error — but that raise is a
`TypeError` from subscripting the list, not a `RuntimeError`. -/
theorem fetch_raise_iff_spec (response : NamesResponse) (now : Int) (prev : Store) :
    ((∃ e, fetch_and_save_names response now = Except.error e) ↔
      contains_error response = true) ∧
    (∀ e, fetch_and_save_names response now = Except.error e →
      storeAfterFetch prev response now = prev) ∧
    fetch_and_save_names
      (.arr [.dict (some "a.hns") (some 1) (some ⟨some 100⟩), .str "error"]) 0 =
      Except.error FetchErr.typeError := by
  refine ⟨?_, ?_, by rfl⟩
  · constructor
    · rintro ⟨e, he⟩
      by_contra hc
      unfold fetch_and_save_names at he
      rw [if_neg (by simpa using hc)] at he
      simp at he
    · intro hc
      unfold fetch_and_save_names
      rw [if_pos hc]
      cases response with
      | obj kvs => exact ⟨_, rfl⟩
      | arr items => exact ⟨_, rfl⟩
  · intro e he
    unfold storeAfterFetch
    rw [he]

/-- Witness for the amended C10 at the concrete list response. -/
theorem fetch_raise_iff_spec_witness :
    storeAfterFetch [("old.hns", ⟨0, 0, none⟩)]
      (.arr [.dict (some "a.hns") (some 1) (some ⟨some 100⟩), .str "error"]) 0 =
      [("old.hns", ⟨0, 0, none⟩)] :=
  (fetch_raise_iff_spec
    (.arr [.dict (some "a.hns") (some 1) (some ⟨some 100⟩), .str "error"]) 0
    [("old.hns", ⟨0, 0, none⟩)]).2.1 FetchErr.typeError (by rfl)
